import Mathlib

/-!
rocFFT rider: validation and defaulting of a transform descriptor.

Shallow embedding of `clients/rider/rider.h`:

* `check_iotypes`      (rider.h lines 83-157)
* `check_set_iotypes`  (rider.h lines 161-204)
* `check_set_iostride` (rider.h lines 208-333)

Conventions of the embedding.

* A `throw std::runtime_error(msg)` is an `Except.error`; every distinct message
  of the source has its own constructor of `RiderError`.
* The reference parameters `itype`, `otype`, `istride`, `ostride` that the source
  mutates are returned as the value of a successful call.
* `std::vector<size_t>` is `List Nat`; an empty vector is `[]`.  The products that
  rider.h forms in `size_t` (`clength[0] * 2`, `2 * ostride[i]`, `2 * istride[i]`)
  wrap at `2 ^ 64`: they go through `size_t_wrap`.  The sum `length[0] / 2 + 1`
  is at most `2 ^ 63` for a `size_t` and cannot wrap.
* Reading `v[i]` outside the vector is undefined behaviour in the source; the
  embedding makes it observable as the fault `RiderError.IndexOutOfBounds`: every
  read that the source guards goes through `vec_read` under the same guard.
-/

namespace Rider

/-- Modelled from the spec: the enumeration `rocfft_result_placement` is declared in
`rocfft.h`, which is not part of the sources at hand; rider.h only compares against
`rocfft_placement_inplace`. -/
inductive rocfft_result_placement
  | inplace
  | notinplace
  deriving DecidableEq, Repr

/-- Modelled from the spec: the enumeration `rocfft_transform_type` is declared in
`rocfft.h`, which is not part of the sources at hand.  The four enumerators are the
ones rider.h names; `out_of_range` stands for any value that is none of them, that
is, a value taking the `default:` branch of the switches in `check_set_iotypes`. -/
inductive rocfft_transform_type
  | complex_forward
  | complex_inverse
  | real_forward
  | real_inverse
  | out_of_range
  deriving DecidableEq, Repr

/-- Modelled from the spec: the enumeration `rocfft_array_type` is declared in
`rocfft.h`, which is not part of the sources at hand.  The six enumerators are the
ones rider.h names. -/
inductive rocfft_array_type
  | complex_interleaved
  | complex_planar
  | real
  | hermitian_interleaved
  | hermitian_planar
  | unset
  deriving DecidableEq, Repr

/-- Failures of the rider checks, one constructor per message thrown in rider.h. -/
inductive RiderError
  /-- "Invalid Input array type format" (lines 97, 109, 140). -/
  | InvalidArrayType
  /-- "In-place transforms must have identical input and output types" (line 118). -/
  | InPlaceTypeMismatch
  /-- "Invalid combination of Input/Output array type formats" (line 155). -/
  | IncompatibleArrayTypePair
  /-- "Invalid transform type" (lines 181, 199). -/
  | InvalidTransformKind
  /-- "Transform dimension doesn't match input stride length" (line 218). -/
  | InputStrideLengthMismatch
  /-- "Transform dimension doesn't match output stride length" (line 223). -/
  | OutputStrideLengthMismatch
  /-- "In-place transforms require istride == ostride" (line 235). -/
  | InPlaceStrideMismatch
  /-- "In-place real/complex transforms require contiguous input data." (line 270). -/
  | InputContiguityViolation
  /-- "In-place real/complex transforms require contiguous output data." (line 275). -/
  | OutputContiguityViolation
  /-- "In-place real-to-complex transforms strides are inconsistent." (line 284). -/
  | RealToComplexScalingMismatch
  /-- "In-place complex-to-real transforms strides are inconsistent." (line 289). -/
  | ComplexToRealScalingMismatch
  /-- "Setup failed; inconsistent istride and length." (line 327). -/
  | SetupInconsistentIstride
  /-- "Setup failed; inconsistent ostride and length." (line 331). -/
  | SetupInconsistentOstride
  /-- Not a throw of the source: a vector was indexed outside its bounds. -/
  | IndexOutOfBounds
  deriving DecidableEq, Repr

/-- The error kinds of the specification (section 7). -/
inductive ErrorKind
  | InvalidTransformKind
  | InvalidArrayType
  | IncompatibleArrayTypePair
  | InPlaceTypeMismatch
  | StrideLengthMismatch
  | InPlaceStrideMismatch
  | InPlaceContiguityViolation
  | ScalingStrideMismatch
  deriving DecidableEq, Repr

/-- The specification's error kind of a thrown message; the two "Setup failed"
messages are the internal consistency fault the specification files under
`StrideLengthMismatch`.  An out-of-bounds read has no kind. -/
def RiderError.kind : RiderError → Option ErrorKind
  | .InvalidArrayType => some .InvalidArrayType
  | .InPlaceTypeMismatch => some .InPlaceTypeMismatch
  | .IncompatibleArrayTypePair => some .IncompatibleArrayTypePair
  | .InvalidTransformKind => some .InvalidTransformKind
  | .InputStrideLengthMismatch => some .StrideLengthMismatch
  | .OutputStrideLengthMismatch => some .StrideLengthMismatch
  | .InPlaceStrideMismatch => some .InPlaceStrideMismatch
  | .InputContiguityViolation => some .InPlaceContiguityViolation
  | .OutputContiguityViolation => some .InPlaceContiguityViolation
  | .RealToComplexScalingMismatch => some .ScalingStrideMismatch
  | .ComplexToRealScalingMismatch => some .ScalingStrideMismatch
  | .SetupInconsistentIstride => some .StrideLengthMismatch
  | .SetupInconsistentOstride => some .StrideLengthMismatch
  | .IndexOutOfBounds => none

deriving instance DecidableEq for Except

open rocfft_result_placement rocfft_transform_type rocfft_array_type

/-! ## check_iotypes (rider.h lines 83-157) -/

/-- The switches at lines 88-98 and 100-110 (and again 142-152): the five cases that
`break`, against the `default:` branch. -/
def known_array_type : rocfft_array_type → Bool
  | complex_interleaved => true
  | complex_planar => true
  | hermitian_interleaved => true
  | hermitian_planar => true
  | real => true
  | unset => false

/-- The switch at lines 124-141: the value given to `okformat`, or the throw of the
`default:` branch. -/
def okformat_of_itype (itype otype : rocfft_array_type) : Except RiderError Bool :=
  match itype with
  | complex_interleaved | complex_planar =>
      .ok (decide (otype = complex_interleaved) || decide (otype = complex_planar))
  | hermitian_interleaved | hermitian_planar =>
      .ok (decide (otype = real))
  | real =>
      .ok (decide (otype = hermitian_interleaved) || decide (otype = hermitian_planar))
  | unset => .error .InvalidArrayType

/-- Embedding of `check_iotypes`: check that the input and output types are consistent. -/
def check_iotypes (place : rocfft_result_placement) (transformType : rocfft_transform_type)
    (itype otype : rocfft_array_type) : Except RiderError Unit :=
  -- lines 88-98
  if known_array_type itype = false then .error .InvalidArrayType
  -- lines 100-110
  else if known_array_type otype = false then .error .InvalidArrayType
  -- lines 113-121
  else if (transformType ≠ real_forward ∧ transformType ≠ real_inverse)
      ∧ (place = inplace ∧ itype ≠ otype) then .error .InPlaceTypeMismatch
  else
    -- lines 123-141
    match okformat_of_itype itype otype with
    | .error e => .error e
    | .ok okformat =>
      -- lines 142-152
      let okformat := if known_array_type otype then okformat else false
      -- lines 153-156
      if okformat = false then .error .IncompatibleArrayTypePair else .ok ()

/-! ## check_set_iotypes (rider.h lines 161-204) -/

/-- The switch at lines 168-182: the default input type of a transform type. -/
def default_itype : rocfft_transform_type → Except RiderError rocfft_array_type
  | complex_forward => .ok complex_interleaved
  | complex_inverse => .ok complex_interleaved
  | real_forward => .ok real
  | real_inverse => .ok hermitian_interleaved
  | out_of_range => .error .InvalidTransformKind

/-- The switch at lines 186-200: the default output type of a transform type. -/
def default_otype : rocfft_transform_type → Except RiderError rocfft_array_type
  | complex_forward => .ok complex_interleaved
  | complex_inverse => .ok complex_interleaved
  | real_forward => .ok hermitian_interleaved
  | real_inverse => .ok real
  | out_of_range => .error .InvalidTransformKind

/-- Embedding of `check_set_iotypes`: unset types get the default of the transform
type, then `check_iotypes` runs on the result.  The value of a successful call is the
pair `(itype, otype)` left in the reference parameters. -/
def check_set_iotypes (place : rocfft_result_placement) (transformType : rocfft_transform_type)
    (itype otype : rocfft_array_type) :
    Except RiderError (rocfft_array_type × rocfft_array_type) :=
  -- lines 166-183
  match (if itype = unset then default_itype transformType else .ok itype) with
  | .error e => .error e
  | .ok itype1 =>
    -- lines 184-201
    match (if otype = unset then default_otype transformType else .ok otype) with
    | .error e => .error e
    | .ok otype1 =>
      -- line 203
      match check_iotypes place transformType itype1 otype1 with
      | .error e => .error e
      | .ok _ => .ok (itype1, otype1)

/-! ## compute_stride (client_utils.h, not among the sources) -/

/-- The strides of the remaining dimensions, the current one having stride `s`:
each stride is the previous stride times the previous extent. -/
def stride_from (s : Nat) : List Nat → List Nat
  | [] => []
  | e :: rest => s :: stride_from (s * e) rest

/-- Modelled from the spec: `compute_stride` is defined in `client_utils.h`, which is
not part of the sources at hand.  It is the specification's
`defaultStride(extents, overrideLeadingDistance)`: `strides[0] = 1` and, for `i ≥ 1`,
`strides[i] = strides[i-1] * effectiveExtent(i-1)`, where `effectiveExtent(0)` is the
override if provided and `extents[0]` otherwise, and `effectiveExtent(k) = extents[k]`
for `k ≥ 1`.  As at the call sites of rider.h (`inplace ? clength[0] * 2 : 0`), the
value `0` of the second argument means that no override is provided. -/
def compute_stride (length : List Nat) (dist : Nat) : List Nat :=
  match length with
  | [] => []
  | l0 :: rest => stride_from 1 ((if dist = 0 then l0 else dist) :: rest)

/-! ## check_set_iostride (rider.h lines 208-333) -/

/-- Lines 226-254, the complex-to-complex branch. -/
def complex_strides (place : rocfft_result_placement) (length istride ostride : List Nat) :
    Except RiderError (List Nat × List Nat) :=
  -- lines 232-236
  if place = inplace ∧ istride ≠ [] ∧ ostride ≠ [] ∧ istride ≠ ostride then
    .error .InPlaceStrideMismatch
  else
    -- lines 240-243
    let ostride1 := if place = inplace ∧ istride ≠ [] ∧ ostride = [] then istride else ostride
    -- lines 246-249
    let istride1 := if istride = [] then compute_stride length 0 else istride
    -- lines 250-253
    let ostride2 := if ostride1 = [] then compute_stride length 0 else ostride1
    .ok (istride1, ostride2)

/-- Arithmetic on `size_t`, an unsigned type of 64 bits, wraps at `2 ^ 64`. -/
def size_t_wrap (n : Nat) : Nat := n % 2 ^ 64

/-- The read `v[i]` of a vector: outside the vector it is the fault
`IndexOutOfBounds`. -/
def vec_read (v : List Nat) (i : Nat) : Except RiderError Nat :=
  match v[i]? with
  | some x => .ok x
  | none => .error .IndexOutOfBounds

/-- The condition `!v.empty() && v[0] != 1` of lines 268 and 273: `&&` reads `v[0]`
only when `v` is not empty. -/
def not_empty_and_head_not_one (v : List Nat) : Except RiderError Bool :=
  if v = [] then .ok false
  else
    match vec_read v 0 with
    | .error e => .error e
    | .ok x => .ok (decide (x ≠ 1))

/-- One iteration of the loop at lines 280-292, for the index `i`; the products
`2 * ostride[i]` and `2 * istride[i]` are formed in `size_t`. -/
def scaling_check_at (forward : Bool) (istride ostride : List Nat) (i : Nat) :
    Except RiderError Unit :=
  match istride[i]?, ostride[i]? with
  | some a, some b =>
    if forward = true ∧ a ≠ size_t_wrap (2 * b) then .error .RealToComplexScalingMismatch
    else if forward = false ∧ size_t_wrap (2 * a) ≠ b then
      .error .ComplexToRealScalingMismatch
    else .ok ()
  | _, _ => .error .IndexOutOfBounds

/-- The loop at lines 280-292 over the given indices, in order, stopping at the
first throw. -/
def scaling_loop (forward : Bool) (istride ostride : List Nat) : List Nat → Except RiderError Unit
  | [] => .ok ()
  | i :: rest =>
    match scaling_check_at forward istride ostride i with
    | .error e => .error e
    | .ok _ => scaling_loop forward istride ostride rest

/-- Lines 265-294, the body of `if(inplace)`. -/
def inplace_real_checks (forward : Bool) (length istride ostride : List Nat) :
    Except RiderError Unit :=
  -- lines 268-272
  match not_empty_and_head_not_one istride with
  | .error e => .error e
  | .ok true => .error .InputContiguityViolation
  | .ok false =>
    -- lines 273-277
    match not_empty_and_head_not_one ostride with
    | .error e => .error e
    | .ok true => .error .OutputContiguityViolation
    | .ok false =>
      -- lines 278-293: i = 1, ..., length.size() - 1
      if istride ≠ [] ∧ ostride ≠ [] then
        scaling_loop forward istride ostride (List.range' 1 (length.length - 1))
      else .ok ()

/-- Lines 255-323, the real/complex branch. -/
def real_complex_strides (place : rocfft_result_placement) (length : List Nat)
    (itype : rocfft_array_type) (istride ostride : List Nat) :
    Except RiderError (List Nat × List Nat) :=
  -- lines 258-259
  let forward : Bool := decide (itype = real)
  let inplace : Bool := decide (place = rocfft_result_placement.inplace)
  -- lines 262-263: clength is length with clength[0] = length[0] / 2 + 1
  match length with
  | [] => .error .IndexOutOfBounds
  | l0 :: rest =>
    let c0 := l0 / 2 + 1
    let clength := c0 :: rest
    -- below, clength[0] * 2 is formed in size_t
    -- lines 265-294
    match (if inplace then inplace_real_checks forward length istride ostride else .ok ()) with
    | .error e => .error e
    | .ok _ =>
      -- lines 296-308
      let istride1 :=
        if istride = [] then
          (if forward then compute_stride length (if inplace then size_t_wrap (c0 * 2) else 0)
           else compute_stride clength 0)
        else istride
      -- lines 310-322
      let ostride1 :=
        if ostride = [] then
          (if forward then compute_stride clength 0
           else compute_stride length (if inplace then size_t_wrap (c0 * 2) else 0))
        else ostride
      .ok (istride1, ostride1)

set_option linter.unusedVariables false in
/-- Embedding of `check_set_iostride`: check the strides and load the defaults of
unset strides.  The value of a successful call is the pair `(istride, ostride)` left
in the reference parameters.  As in the source, `otype` is not read. -/
def check_set_iostride (place : rocfft_result_placement) (transformType : rocfft_transform_type)
    (length : List Nat) (itype otype : rocfft_array_type) (istride ostride : List Nat) :
    Except RiderError (List Nat × List Nat) :=
  -- lines 216-219
  if istride ≠ [] ∧ istride.length ≠ length.length then .error .InputStrideLengthMismatch
  -- lines 221-224
  else if ostride ≠ [] ∧ ostride.length ≠ length.length then .error .OutputStrideLengthMismatch
  else
    -- lines 226-323
    match (if transformType = complex_forward ∨ transformType = complex_inverse
           then complex_strides place length istride ostride
           else real_complex_strides place length itype istride ostride) with
    | .error e => .error e
    | .ok (istride1, ostride1) =>
      -- lines 325-328
      if istride1.length ≠ length.length then .error .SetupInconsistentIstride
      -- lines 329-332
      else if ostride1.length ≠ length.length then .error .SetupInconsistentOstride
      else .ok (istride1, ostride1)

/-! ## The statements of the specification, in its own words -/

/-- Rule 1 of the specification's ArrayTypeValidator: the type is one of
complex-interleaved, complex-planar, hermitian-interleaved, hermitian-planar, real. -/
def spec_valid_array_type (t : rocfft_array_type) : Prop :=
  t = complex_interleaved ∨ t = complex_planar ∨ t = hermitian_interleaved
    ∨ t = hermitian_planar ∨ t = real

/-- Rule 3 of the specification's ArrayTypeValidator: pairwise compatibility. -/
def spec_pair_compatible (itype otype : rocfft_array_type) : Prop :=
  (itype = complex_interleaved ∨ itype = complex_planar →
      otype = complex_interleaved ∨ otype = complex_planar)
  ∧ (itype = hermitian_interleaved ∨ itype = hermitian_planar → otype = real)
  ∧ (itype = real → otype = hermitian_interleaved ∨ otype = hermitian_planar)

/-- The three conditions under which, by the specification, `check_iotypes` succeeds;
rule 2 is worded as there: for a complex-forward or complex-inverse transform that is
in-place, the two types are equal. -/
def spec_iotypes_ok (place : rocfft_result_placement) (transformType : rocfft_transform_type)
    (itype otype : rocfft_array_type) : Prop :=
  (spec_valid_array_type itype ∧ spec_valid_array_type otype)
  ∧ ((transformType = complex_forward ∨ transformType = complex_inverse) ∧ place = inplace →
      itype = otype)
  ∧ spec_pair_compatible itype otype

/-- The default types of the specification's ArrayTypeResolver table; a transform
kind outside the table has no row. -/
def spec_default_types : rocfft_transform_type → Option (rocfft_array_type × rocfft_array_type)
  | complex_forward => some (complex_interleaved, complex_interleaved)
  | complex_inverse => some (complex_interleaved, complex_interleaved)
  | real_forward => some (real, hermitian_interleaved)
  | real_inverse => some (hermitian_interleaved, real)
  | out_of_range => none

/-- The 2x relation of the loop at lines 280-292 at the index `i`, as the source
evaluates it: both strides have an entry there, `istride[i]` equals `2 * ostride[i]`
formed in `size_t` when `forward`, and `2 * istride[i]` formed in `size_t` equals
`ostride[i]` when not. -/
def scaled_at (forward : Bool) (istride ostride : List Nat) (i : Nat) : Prop :=
  ∃ a b, istride[i]? = some a ∧ ostride[i]? = some b
    ∧ (forward = true → a = size_t_wrap (2 * b))
    ∧ (forward = false → size_t_wrap (2 * a) = b)

/-- The two dimension checks of lines 216-224 pass: each stride is empty or has the
size of `length`. -/
def dimensions_agree (length istride ostride : List Nat) : Prop :=
  (istride = [] ∨ istride.length = length.length)
  ∧ (ostride = [] ∨ ostride.length = length.length)

/-- The messages of the checks of `check_set_iostride` on what the caller supplied
(lines 216-294), as against the two "Setup failed" messages of the final validation
and a read outside a vector. -/
def stride_input_check : RiderError → Bool
  | .InputStrideLengthMismatch => true
  | .OutputStrideLengthMismatch => true
  | .InPlaceStrideMismatch => true
  | .InputContiguityViolation => true
  | .OutputContiguityViolation => true
  | .RealToComplexScalingMismatch => true
  | .ComplexToRealScalingMismatch => true
  | _ => false

/-! ## Array types -/

/-- C1, as the code has it: `check_iotypes` succeeds if and only if (1) both types are
among the five storage types, (2) if the transform type is neither real-forward nor
real-inverse and the placement is in-place then the two types are equal, (3) the pair
is compatible; and it fails exactly when one of the three does not hold. -/
theorem check_iotypes_ok_iff (place : rocfft_result_placement)
    (transformType : rocfft_transform_type) (itype otype : rocfft_array_type) :
    (check_iotypes place transformType itype otype = .ok () ↔
      (spec_valid_array_type itype ∧ spec_valid_array_type otype)
      ∧ ((transformType ≠ real_forward ∧ transformType ≠ real_inverse) ∧ place = inplace →
          itype = otype)
      ∧ spec_pair_compatible itype otype)
    ∧ ((∃ e, check_iotypes place transformType itype otype = .error e) ↔
      ¬ ((spec_valid_array_type itype ∧ spec_valid_array_type otype)
      ∧ ((transformType ≠ real_forward ∧ transformType ≠ real_inverse) ∧ place = inplace →
          itype = otype)
      ∧ spec_pair_compatible itype otype)) := by
  cases place <;> cases transformType <;> cases itype <;> cases otype <;>
    simp [check_iotypes, known_array_type, okformat_of_itype, spec_valid_array_type,
      spec_pair_compatible]

/-- C1, counterexample: for an in-place transform whose type is none of the four
enumerators, with complex-interleaved input and complex-planar output, the three
conditions of the claim hold and `check_iotypes` throws all the same, so success is
not equivalent to the three conditions. -/
theorem check_iotypes_claim_fails_out_of_range :
    ¬ (check_iotypes inplace out_of_range complex_interleaved complex_planar = .ok () ↔
        spec_iotypes_ok inplace out_of_range complex_interleaved complex_planar) := by
  intro h
  have hspec : spec_iotypes_ok inplace out_of_range complex_interleaved complex_planar := by
    simp [spec_iotypes_ok, spec_valid_array_type, spec_pair_compatible]
  have hcode := h.mpr hspec
  revert hcode
  decide

/-- C2: for a transform kind with a row `(di, dO)` in the table of defaults,
`check_set_iotypes` is `check_iotypes` run on the two types in which an unset input
type has been replaced by `di` and an unset output type by `dO`, each on its own
account, and a successful call returns that pair; with both types unset the call
succeeds for every placement and returns `(di, dO)`. -/
theorem check_set_iotypes_defaults (transformType : rocfft_transform_type)
    (di dO : rocfft_array_type) (hrow : spec_default_types transformType = some (di, dO))
    (place : rocfft_result_placement) (itype otype : rocfft_array_type) :
    check_set_iotypes place transformType itype otype
      = (match check_iotypes place transformType
            (if itype = unset then di else itype) (if otype = unset then dO else otype) with
         | .error e => .error e
         | .ok _ => .ok (if itype = unset then di else itype, if otype = unset then dO else otype))
    ∧ check_set_iotypes place transformType unset unset = .ok (di, dO) := by
  cases transformType <;> simp [spec_default_types] at hrow <;> obtain ⟨rfl, rfl⟩ := hrow <;>
    cases place <;> cases itype <;> cases otype <;> decide

/-- C2, witness: the real-forward row of the table, out-of-place, input type unset
and output type hermitian-planar. -/
theorem check_set_iotypes_defaults_witness :
    spec_default_types real_forward = some (real, hermitian_interleaved)
    ∧ check_set_iotypes notinplace real_forward unset hermitian_planar
        = .ok (real, hermitian_planar)
    ∧ check_set_iotypes notinplace real_forward unset unset
        = .ok (real, hermitian_interleaved) :=
  ⟨rfl, check_set_iotypes_defaults real_forward real hermitian_interleaved rfl
    notinplace unset hermitian_planar⟩

/-- C5, as the code has it: with hermitian-interleaved input and complex-interleaved
output `check_iotypes` fails for every placement and transform type; the failure is
`InPlaceTypeMismatch` when the placement is in-place and the transform type is neither
real-forward nor real-inverse, and `IncompatibleArrayTypePair` in every other case. -/
theorem check_iotypes_hermitian_to_complex (place : rocfft_result_placement)
    (transformType : rocfft_transform_type) :
    check_iotypes place transformType hermitian_interleaved complex_interleaved
      = .error (if place = inplace ∧ transformType ≠ real_forward ∧ transformType ≠ real_inverse
                then .InPlaceTypeMismatch else .IncompatibleArrayTypePair) := by
  cases place <;> cases transformType <;> decide

/-- C5, counterexample: in-place and complex-forward, the failure is
`InPlaceTypeMismatch`, not `IncompatibleArrayTypePair`. -/
theorem check_iotypes_hermitian_to_complex_inplace :
    check_iotypes inplace complex_forward hermitian_interleaved complex_interleaved
        = .error .InPlaceTypeMismatch
    ∧ check_iotypes inplace complex_forward hermitian_interleaved complex_interleaved
        ≠ .error .IncompatibleArrayTypePair := by
  decide

/-! ## The guarded reads of index 0 -/

theorem not_empty_and_head_not_one_eq (v : List Nat) :
    not_empty_and_head_not_one v = .ok (decide (v ≠ [] ∧ v[0]? ≠ some 1)) := by
  cases v with
  | nil => simp [not_empty_and_head_not_one]
  | cons x rest => simp [not_empty_and_head_not_one, vec_read]

/-- The body of `if(inplace)` as a chain of conditions: the guarded reads of index 0
never fault. -/
theorem inplace_real_checks_eq (forward : Bool) (length istride ostride : List Nat) :
    inplace_real_checks forward length istride ostride
      = (if istride ≠ [] ∧ istride[0]? ≠ some 1 then .error .InputContiguityViolation
         else if ostride ≠ [] ∧ ostride[0]? ≠ some 1 then .error .OutputContiguityViolation
         else if istride ≠ [] ∧ ostride ≠ [] then
           scaling_loop forward istride ostride (List.range' 1 (length.length - 1))
         else .ok ()) := by
  unfold inplace_real_checks
  rw [not_empty_and_head_not_one_eq, not_empty_and_head_not_one_eq]
  by_cases hI : istride ≠ [] ∧ istride[0]? ≠ some 1
  · rw [if_pos hI, decide_eq_true hI]
  · rw [if_neg hI, decide_eq_false hI]
    by_cases hO : ostride ≠ [] ∧ ostride[0]? ≠ some 1
    · rw [if_pos hO, decide_eq_true hO]
    · rw [if_neg hO, decide_eq_false hO]

/-! ## Strides: the complex-to-complex branch -/

theorem stride_from_length (ext : List Nat) :
    ∀ s : Nat, (stride_from s ext).length = ext.length := by
  induction ext with
  | nil => intro s; rfl
  | cons e rest ih => intro s; simp [stride_from, ih]

theorem compute_stride_length (length : List Nat) (dist : Nat) :
    (compute_stride length dist).length = length.length := by
  cases length with
  | nil => rfl
  | cons l0 rest => simp [compute_stride, stride_from, stride_from_length]

theorem compute_stride_eq_nil (length : List Nat) (dist : Nat) :
    compute_stride length dist = [] ↔ length = [] := by
  cases length with
  | nil => simp [compute_stride]
  | cons l0 rest => simp [compute_stride, stride_from]

/-- C3, the code at the failing input: an in-place complex-forward descriptor of
length `[16]` with the types unset, the input stride unset and the output stride `[2]`
passes both checks and comes out with input stride `[1]` and output stride `[2]`. -/
theorem inplace_complex_ostride_only_unequal :
    check_set_iotypes inplace complex_forward unset unset
        = .ok (complex_interleaved, complex_interleaved)
    ∧ check_set_iostride inplace complex_forward [16] complex_interleaved complex_interleaved
        [] [2] = .ok ([1], [2])
    ∧ ([1] : List Nat) ≠ [2] := by
  decide

/-- C6, the code at the failing input: for an in-place complex-forward transform of
length `[16]` with the input stride unset and the output stride `[2]` the call succeeds
with `([1], [2])`, and the call on `([1], [2])` throws "In-place transforms require
istride == ostride". -/
theorem resolved_strides_rejected_on_second_call :
    check_set_iostride inplace complex_forward [16] complex_interleaved complex_interleaved
        [] [2] = .ok ([1], [2])
    ∧ check_set_iostride inplace complex_forward [16] complex_interleaved complex_interleaved
        [1] [2] = .error .InPlaceStrideMismatch := by
  decide

/-- C9: for an in-place complex-forward or complex-inverse transform with a supplied
input stride (non-empty, of the size of `length`) and the output stride unset,
`check_set_iostride` succeeds and both resulting strides are the supplied input
stride. -/
theorem inplace_complex_istride_only (transformType : rocfft_transform_type)
    (hkind : transformType = complex_forward ∨ transformType = complex_inverse)
    (length : List Nat) (itype otype : rocfft_array_type) (istride : List Nat)
    (hne : istride ≠ []) (hsize : istride.length = length.length) :
    check_set_iostride inplace transformType length itype otype istride []
      = .ok (istride, istride) := by
  simp [check_set_iostride, complex_strides, hkind, hne, hsize]

/-- C9, witness: length `[16]`, complex-forward, input stride `[1]`. -/
theorem inplace_complex_istride_only_witness :
    (complex_forward = complex_forward ∨ complex_forward = complex_inverse)
    ∧ ([1] : List Nat) ≠ [] ∧ ([1] : List Nat).length = ([16] : List Nat).length
    ∧ check_set_iostride inplace complex_forward [16] complex_interleaved complex_interleaved
        [1] [] = .ok ([1], [1]) :=
  ⟨Or.inl rfl, by decide, rfl,
    inplace_complex_istride_only complex_forward (Or.inl rfl) [16] complex_interleaved
      complex_interleaved [1] (by decide) rfl⟩

/-- C10: for an in-place complex-forward or complex-inverse transform with both strides
supplied (non-empty, of the size of `length`) and different, `check_set_iostride` fails
with "In-place transforms require istride == ostride", the specification's
`InPlaceStrideMismatch`. -/
theorem inplace_complex_stride_mismatch (transformType : rocfft_transform_type)
    (hkind : transformType = complex_forward ∨ transformType = complex_inverse)
    (length : List Nat) (itype otype : rocfft_array_type) (istride ostride : List Nat)
    (hine : istride ≠ []) (hone : ostride ≠ [])
    (hisize : istride.length = length.length) (hosize : ostride.length = length.length)
    (hdiff : istride ≠ ostride) :
    check_set_iostride inplace transformType length itype otype istride ostride
        = .error .InPlaceStrideMismatch
    ∧ RiderError.kind .InPlaceStrideMismatch = some ErrorKind.InPlaceStrideMismatch := by
  simp [check_set_iostride, complex_strides, hkind, hine, hone, hisize, hosize, hdiff,
    RiderError.kind]

/-- C10, witness: length `[16]`, complex-forward, strides `[1]` and `[2]`. -/
theorem inplace_complex_stride_mismatch_witness :
    (complex_forward = complex_forward ∨ complex_forward = complex_inverse)
    ∧ ([1] : List Nat) ≠ [] ∧ ([2] : List Nat) ≠ []
    ∧ ([1] : List Nat).length = ([16] : List Nat).length
    ∧ ([2] : List Nat).length = ([16] : List Nat).length
    ∧ ([1] : List Nat) ≠ [2]
    ∧ check_set_iostride inplace complex_forward [16] complex_interleaved complex_interleaved
        [1] [2] = .error .InPlaceStrideMismatch :=
  ⟨Or.inl rfl, by decide, by decide, rfl, rfl, by decide,
    (inplace_complex_stride_mismatch complex_forward (Or.inl rfl) [16] complex_interleaved
      complex_interleaved [1] [2] (by decide) (by decide) rfl rfl (by decide)).1⟩

/-! ## Strides: the real/complex branch -/

theorem stride_from_head (s e : Nat) (rest : List Nat) :
    (stride_from s (e :: rest))[0]? = some s := by
  simp [stride_from]

theorem scaling_check_at_ok_iff (forward : Bool) (istride ostride : List Nat) (i : Nat) :
    scaling_check_at forward istride ostride i = .ok () ↔ scaled_at forward istride ostride i := by
  unfold scaling_check_at scaled_at
  cases hi : istride[i]? with
  | none => simp
  | some a =>
    cases ho : ostride[i]? with
    | none => simp
    | some b => cases forward <;> simp

theorem scaling_loop_ok_iff (forward : Bool) (istride ostride : List Nat) (idx : List Nat) :
    scaling_loop forward istride ostride idx = .ok () ↔
      ∀ i ∈ idx, scaled_at forward istride ostride i := by
  induction idx with
  | nil => simp [scaling_loop]
  | cons i rest ih =>
    simp only [scaling_loop, List.mem_cons, forall_eq_or_imp]
    rw [← scaling_check_at_ok_iff, ← ih]
    cases h : scaling_check_at forward istride ostride i <;> simp

/-- A successful call of `check_set_iostride` returns strides of the size of `length`
that were computed by one of the two branches. -/
theorem check_set_iostride_ok_sizes (place : rocfft_result_placement)
    (transformType : rocfft_transform_type) (length : List Nat)
    (itype otype : rocfft_array_type) (istride ostride : List Nat) (r : List Nat × List Nat)
    (h : check_set_iostride place transformType length itype otype istride ostride = .ok r) :
    dimensions_agree length istride ostride
    ∧ (if transformType = complex_forward ∨ transformType = complex_inverse
        then complex_strides place length istride ostride
        else real_complex_strides place length itype istride ostride) = .ok r
    ∧ r.1.length = length.length ∧ r.2.length = length.length := by
  unfold check_set_iostride at h
  by_cases hA : istride ≠ [] ∧ istride.length ≠ length.length
  · simp [hA] at h
  · by_cases hB : ostride ≠ [] ∧ ostride.length ≠ length.length
    · simp [hA, hB] at h
    · rw [if_neg hA, if_neg hB] at h
      generalize (if transformType = complex_forward ∨ transformType = complex_inverse
        then complex_strides place length istride ostride
        else real_complex_strides place length itype istride ostride) = branch at h ⊢
      have hdim : dimensions_agree length istride ostride := by
        unfold dimensions_agree
        constructor
        · by_cases hi : istride = []
          · exact Or.inl hi
          · exact Or.inr (by_contra fun hne => hA ⟨hi, hne⟩)
        · by_cases ho : ostride = []
          · exact Or.inl ho
          · exact Or.inr (by_contra fun hne => hB ⟨ho, hne⟩)
      cases branch with
      | error e => simp at h
      | ok q =>
        obtain ⟨q1, q2⟩ := q
        simp only at h
        by_cases hC : q1.length ≠ length.length
        · simp [hC] at h
        · by_cases hD : q2.length ≠ length.length
          · simp [hC, hD] at h
          · rw [if_neg hC, if_neg hD] at h
            injection h with h
            subst h
            exact ⟨hdim, rfl, not_not.mp hC, not_not.mp hD⟩

/-- C11: whenever a non-empty input stride or a non-empty output stride differs in
size from `length`, `check_set_iostride` fails with one of the two "Transform dimension
doesn't match ... stride length" messages, the specification's `StrideLengthMismatch`,
whatever the placement, the transform type, the array types and the contents of the
strides, hence ahead of every other stride check. -/
theorem stride_length_mismatch_first (place : rocfft_result_placement)
    (transformType : rocfft_transform_type) (length : List Nat)
    (itype otype : rocfft_array_type) (istride ostride : List Nat)
    (hbad : (istride ≠ [] ∧ istride.length ≠ length.length)
      ∨ (ostride ≠ [] ∧ ostride.length ≠ length.length)) :
    ∃ e, check_set_iostride place transformType length itype otype istride ostride = .error e
      ∧ (e = .InputStrideLengthMismatch ∨ e = .OutputStrideLengthMismatch)
      ∧ e.kind = some ErrorKind.StrideLengthMismatch := by
  by_cases hA : istride ≠ [] ∧ istride.length ≠ length.length
  · exact ⟨.InputStrideLengthMismatch, by simp [check_set_iostride, hA], Or.inl rfl, rfl⟩
  · have hB : ostride ≠ [] ∧ ostride.length ≠ length.length := hbad.resolve_left hA
    refine ⟨.OutputStrideLengthMismatch, ?_, Or.inr rfl, rfl⟩
    unfold check_set_iostride
    rw [if_neg hA, if_pos hB]

/-- C11, witness: in-place complex-forward, length `[16]`, input stride `[1, 2]` and
output stride `[3]`; the strides also differ, and the dimension check is the one that
fires. -/
theorem stride_length_mismatch_first_witness :
    ((([1, 2] : List Nat) ≠ [] ∧ ([1, 2] : List Nat).length ≠ ([16] : List Nat).length)
      ∨ (([3] : List Nat) ≠ [] ∧ ([3] : List Nat).length ≠ ([16] : List Nat).length))
    ∧ ∃ e, check_set_iostride inplace complex_forward [16] complex_interleaved
          complex_interleaved [1, 2] [3] = .error e
        ∧ (e = .InputStrideLengthMismatch ∨ e = .OutputStrideLengthMismatch)
        ∧ e.kind = some ErrorKind.StrideLengthMismatch :=
  ⟨Or.inl (by decide),
    stride_length_mismatch_first inplace complex_forward [16] complex_interleaved
      complex_interleaved [1, 2] [3] (Or.inl (by decide))⟩

/-- C13: on every input with non-empty length on which `check_set_iostride` succeeds,
both resulting strides are non-empty and have exactly the size of `length`. -/
theorem resolved_strides_have_dimension (place : rocfft_result_placement)
    (transformType : rocfft_transform_type) (length : List Nat) (hlen : length ≠ [])
    (itype otype : rocfft_array_type) (istride ostride is' os' : List Nat)
    (h : check_set_iostride place transformType length itype otype istride ostride
      = .ok (is', os')) :
    is' ≠ [] ∧ os' ≠ [] ∧ is'.length = length.length ∧ os'.length = length.length := by
  obtain ⟨_, _, h1, h2⟩ := check_set_iostride_ok_sizes place transformType length itype otype
    istride ostride (is', os') h
  have hpos : 0 < length.length := List.length_pos.mpr hlen
  refine ⟨?_, ?_, h1, h2⟩
  · intro hnil
    simp [hnil] at h1
    omega
  · intro hnil
    simp [hnil] at h2
    omega

/-- C13, witness: out-of-place real-forward, length `[8, 4]`, strides unset. -/
theorem resolved_strides_have_dimension_witness :
    ([8, 4] : List Nat) ≠ []
    ∧ check_set_iostride notinplace real_forward [8, 4] real hermitian_interleaved [] []
        = .ok ([1, 8], [1, 5])
    ∧ (([1, 8] : List Nat) ≠ [] ∧ ([1, 5] : List Nat) ≠ []
      ∧ ([1, 8] : List Nat).length = ([8, 4] : List Nat).length
      ∧ ([1, 5] : List Nat).length = ([8, 4] : List Nat).length) :=
  ⟨by decide, rfl,
    resolved_strides_have_dimension notinplace real_forward [8, 4] (by decide) real
      hermitian_interleaved [] [] [1, 8] [1, 5] rfl⟩

/-- The complex-to-complex branch leaves a supplied stride as it is. -/
theorem complex_strides_frame (place : rocfft_result_placement)
    (length istride ostride : List Nat) (r : List Nat × List Nat)
    (h : complex_strides place length istride ostride = .ok r) :
    (istride ≠ [] → r.1 = istride) ∧ (ostride ≠ [] → r.2 = ostride) := by
  unfold complex_strides at h
  by_cases hA : place = inplace ∧ istride ≠ [] ∧ ostride ≠ [] ∧ istride ≠ ostride
  · simp [hA] at h
  · rw [if_neg hA] at h
    injection h with h
    subst h
    constructor
    · intro hi
      simp [hi]
    · intro ho
      simp [ho]

/-- The real/complex branch leaves a supplied stride as it is. -/
theorem real_complex_strides_frame (place : rocfft_result_placement) (length : List Nat)
    (itype : rocfft_array_type) (istride ostride : List Nat) (r : List Nat × List Nat)
    (h : real_complex_strides place length itype istride ostride = .ok r) :
    (istride ≠ [] → r.1 = istride) ∧ (ostride ≠ [] → r.2 = ostride) := by
  unfold real_complex_strides at h
  cases length with
  | nil => simp at h
  | cons l0 rest =>
    simp only at h
    split at h
    · simp at h
    · injection h with h
      subst h
      constructor
      · intro hi
        simp [hi]
      · intro ho
        simp [ho]

/-- C14: the two resolvers change only unset fields.  Whenever `check_set_iotypes`
succeeds, an input type that was not unset on entry is returned unchanged, and likewise
the output type; whenever `check_set_iostride` succeeds, an input stride that was
non-empty on entry is returned unchanged, and likewise the output stride. -/
theorem resolvers_change_only_unset_fields :
    (∀ (place : rocfft_result_placement) (transformType : rocfft_transform_type)
        (itype otype it' ot' : rocfft_array_type),
        check_set_iotypes place transformType itype otype = .ok (it', ot') →
        (itype ≠ unset → it' = itype) ∧ (otype ≠ unset → ot' = otype))
    ∧ (∀ (place : rocfft_result_placement) (transformType : rocfft_transform_type)
        (length : List Nat) (itype otype : rocfft_array_type)
        (istride ostride is' os' : List Nat),
        check_set_iostride place transformType length itype otype istride ostride
          = .ok (is', os') →
        (istride ≠ [] → is' = istride) ∧ (ostride ≠ [] → os' = ostride)) := by
  constructor
  · intro place transformType itype otype it' ot' h
    cases place <;> cases transformType <;> cases itype <;> cases otype <;>
      simp [check_set_iotypes, default_itype, default_otype, check_iotypes, known_array_type,
        okformat_of_itype] at h <;>
      simp [← h.1, ← h.2]
  · intro place transformType length itype otype istride ostride is' os' h
    obtain ⟨_, hbranch, _, _⟩ := check_set_iostride_ok_sizes place transformType length itype
      otype istride ostride (is', os') h
    split_ifs at hbranch
    · exact complex_strides_frame place length istride ostride (is', os') hbranch
    · exact real_complex_strides_frame place length itype istride ostride (is', os') hbranch

/-- C14, witness: a supplied output type hermitian-planar next to an unset input type,
and a supplied output stride `[2]` next to an unset input stride, come back unchanged. -/
theorem resolvers_change_only_unset_fields_witness :
    (check_set_iotypes notinplace real_forward unset hermitian_planar
        = .ok (real, hermitian_planar)
      ∧ ((unset ≠ unset → real = unset)
        ∧ (hermitian_planar ≠ unset → hermitian_planar = hermitian_planar)))
    ∧ (check_set_iostride notinplace complex_forward [16] complex_interleaved
          complex_interleaved [] [2] = .ok ([1], [2])
      ∧ ((([] : List Nat) ≠ [] → ([1] : List Nat) = [])
        ∧ (([2] : List Nat) ≠ [] → ([2] : List Nat) = [2]))) :=
  ⟨⟨rfl, resolvers_change_only_unset_fields.1 notinplace real_forward unset hermitian_planar
      real hermitian_planar rfl⟩,
    ⟨rfl, resolvers_change_only_unset_fields.2 notinplace complex_forward [16]
      complex_interleaved complex_interleaved [] [2] [1] [2] rfl⟩⟩

/-- C16, as the code has it: for a transform type outside the four enumerators,
`check_set_iotypes` fails with "Invalid transform type" exactly when the input type or
the output type is unset; with both types set no switch over the transform type is
entered and the call is `check_iotypes` on the two types, returning them on success. -/
theorem check_set_iotypes_out_of_range (place : rocfft_result_placement)
    (itype otype : rocfft_array_type) :
    check_set_iotypes place out_of_range itype otype
      = (if itype = unset ∨ otype = unset then .error .InvalidTransformKind
         else match check_iotypes place out_of_range itype otype with
           | .error e => .error e
           | .ok _ => .ok (itype, otype))
    ∧ (itype ≠ unset → otype ≠ unset →
        check_set_iotypes place out_of_range itype otype ≠ .error .InvalidTransformKind) := by
  cases place <;> cases itype <;> cases otype <;> decide

/-- C16, counterexample: out-of-place, a transform type outside the four enumerators
and both types complex-interleaved: `check_set_iotypes` succeeds. -/
theorem check_set_iotypes_out_of_range_succeeds :
    check_set_iotypes notinplace out_of_range complex_interleaved complex_interleaved
        = .ok (complex_interleaved, complex_interleaved)
    ∧ check_set_iotypes notinplace out_of_range complex_interleaved complex_interleaved
        ≠ .error .InvalidTransformKind := by
  decide

/-! ## Strides: the checks of the in-place real/complex branch -/

theorem compute_stride_head (l0 : Nat) (rest : List Nat) (dist : Nat) :
    (compute_stride (l0 :: rest) dist)[0]? = some 1 := by
  simp [compute_stride, stride_from]

/-- With both strides covering every index of the list, the loop of lines 280-292
either runs through or throws the scaling message of its direction; it reads no entry
outside the strides. -/
theorem scaling_loop_error (forward : Bool) (istride ostride : List Nat) (idx : List Nat)
    (hbound : ∀ i ∈ idx, i < istride.length ∧ i < ostride.length) (e : RiderError)
    (h : scaling_loop forward istride ostride idx = .error e) :
    e = (if forward then .RealToComplexScalingMismatch else .ComplexToRealScalingMismatch) := by
  induction idx with
  | nil => simp [scaling_loop] at h
  | cons i rest ih =>
    have hi := hbound i (List.mem_cons_self i rest)
    have hrest : ∀ j ∈ rest, j < istride.length ∧ j < ostride.length :=
      fun j hj => hbound j (List.mem_cons_of_mem i hj)
    unfold scaling_loop at h
    cases hc : scaling_check_at forward istride ostride i with
    | ok u =>
      rw [hc] at h
      exact ih hrest h
    | error e2 =>
      rw [hc] at h
      injection h with h
      subst h
      unfold scaling_check_at at hc
      rw [List.getElem?_eq_getElem hi.1, List.getElem?_eq_getElem hi.2] at hc
      simp only at hc
      cases forward with
      | true =>
        by_cases hab : istride[i] ≠ size_t_wrap (2 * ostride[i])
        · simp [hab] at hc
          simp [hc]
        · simp [hab] at hc
      | false =>
        by_cases hab : size_t_wrap (2 * istride[i]) ≠ ostride[i]
        · simp [hab] at hc
          simp [hc]
        · simp [hab] at hc

/-- The sizes of the strides computed by the real/complex branch. -/
theorem real_complex_strides_ok_lengths (place : rocfft_result_placement) (l0 : Nat)
    (rest : List Nat) (itype : rocfft_array_type) (istride ostride : List Nat)
    (hdim : dimensions_agree (l0 :: rest) istride ostride) (r : List Nat × List Nat)
    (h : real_complex_strides place (l0 :: rest) itype istride ostride = .ok r) :
    r.1.length = (l0 :: rest).length ∧ r.2.length = (l0 :: rest).length := by
  unfold real_complex_strides at h
  simp only at h
  split at h
  · simp at h
  · injection h with h
    subst h
    obtain ⟨hi, ho⟩ := hdim
    constructor
    · by_cases hie : istride = []
      · by_cases hf : itype = real <;> simp [hie, hf, compute_stride_length]
      · simpa [hie] using hi.resolve_left hie
    · by_cases hoe : ostride = []
      · by_cases hf : itype = real <;> simp [hoe, hf, compute_stride_length]
      · simpa [hoe] using ho.resolve_left hoe

/-- The sizes of the strides computed by the complex-to-complex branch. -/
theorem complex_strides_ok_lengths (place : rocfft_result_placement)
    (length istride ostride : List Nat)
    (hdim : dimensions_agree length istride ostride) (r : List Nat × List Nat)
    (h : complex_strides place length istride ostride = .ok r) :
    r.1.length = length.length ∧ r.2.length = length.length := by
  unfold complex_strides at h
  by_cases hA : place = inplace ∧ istride ≠ [] ∧ ostride ≠ [] ∧ istride ≠ ostride
  · simp [hA] at h
  · rw [if_neg hA] at h
    injection h with h
    subst h
    obtain ⟨hi, ho⟩ := hdim
    constructor
    · by_cases hie : istride = []
      · simp [hie, compute_stride_length]
      · simpa [hie] using hi.resolve_left hie
    · by_cases hoe : ostride = []
      · by_cases hie : istride = []
        · simp [hoe, hie, compute_stride_length]
        · by_cases hp : place = inplace
          · simpa [hoe, hie, hp] using hi.resolve_left hie
          · simp [hoe, hie, hp, compute_stride_length]
      · simpa [hoe] using ho.resolve_left hoe

/-- Past the dimension checks, `check_set_iostride` is the branch of its transform
type: the final validation of lines 325-332 changes nothing. -/
theorem check_set_iostride_eq_branch (place : rocfft_result_placement)
    (transformType : rocfft_transform_type) (l0 : Nat) (rest : List Nat)
    (itype otype : rocfft_array_type) (istride ostride : List Nat)
    (hdim : dimensions_agree (l0 :: rest) istride ostride) :
    check_set_iostride place transformType (l0 :: rest) itype otype istride ostride
      = (if transformType = complex_forward ∨ transformType = complex_inverse
          then complex_strides place (l0 :: rest) istride ostride
          else real_complex_strides place (l0 :: rest) itype istride ostride) := by
  have hA : ¬ (istride ≠ [] ∧ istride.length ≠ (l0 :: rest).length) := by
    rintro ⟨h1, h2⟩
    exact h2 (hdim.1.resolve_left h1)
  have hB : ¬ (ostride ≠ [] ∧ ostride.length ≠ (l0 :: rest).length) := by
    rintro ⟨h1, h2⟩
    exact h2 (hdim.2.resolve_left h1)
  unfold check_set_iostride
  rw [if_neg hA, if_neg hB]
  by_cases hk : transformType = complex_forward ∨ transformType = complex_inverse
  · rw [if_pos hk]
    cases hr : complex_strides place (l0 :: rest) istride ostride with
    | error e => rfl
    | ok q =>
      obtain ⟨h1, h2⟩ := complex_strides_ok_lengths place (l0 :: rest) istride ostride hdim q hr
      obtain ⟨q1, q2⟩ := q
      simp only at h1 h2 ⊢
      rw [if_neg (by simp [h1]), if_neg (by simp [h2])]
  · rw [if_neg hk]
    cases hr : real_complex_strides place (l0 :: rest) itype istride ostride with
    | error e => rfl
    | ok q =>
      obtain ⟨h1, h2⟩ :=
        real_complex_strides_ok_lengths place l0 rest itype istride ostride hdim q hr
      obtain ⟨q1, q2⟩ := q
      simp only at h1 h2 ⊢
      rw [if_neg (by simp [h1]), if_neg (by simp [h2])]

/-- When the checks of lines 265-294 pass, a supplied stride starts with 1. -/
theorem inplace_real_checks_ok_heads (forward : Bool) (length istride ostride : List Nat)
    (u : Unit) (h : inplace_real_checks forward length istride ostride = .ok u) :
    (istride = [] ∨ istride[0]? = some 1) ∧ (ostride = [] ∨ ostride[0]? = some 1) := by
  rw [inplace_real_checks_eq] at h
  by_cases hI : istride ≠ [] ∧ istride[0]? ≠ some 1
  · simp [hI] at h
  · by_cases hO : ostride ≠ [] ∧ ostride[0]? ≠ some 1
    · rw [if_neg hI, if_pos hO] at h
      exact absurd h (by simp)
    · constructor
      · by_cases hie : istride = []
        · exact Or.inl hie
        · exact Or.inr (by_contra fun hne => hI ⟨hie, hne⟩)
      · by_cases hoe : ostride = []
        · exact Or.inl hoe
        · exact Or.inr (by_contra fun hne => hO ⟨hoe, hne⟩)

/-- A failure of the checks of lines 265-294, run past the dimension checks, is one
of the four messages thrown there. -/
theorem inplace_real_checks_error (forward : Bool) (length istride ostride : List Nat)
    (hdim : dimensions_agree length istride ostride) (e : RiderError)
    (h : inplace_real_checks forward length istride ostride = .error e) :
    e = .InputContiguityViolation ∨ e = .OutputContiguityViolation
      ∨ e = (if forward then .RealToComplexScalingMismatch
             else .ComplexToRealScalingMismatch) := by
  rw [inplace_real_checks_eq] at h
  by_cases hI : istride ≠ [] ∧ istride[0]? ≠ some 1
  · rw [if_pos hI] at h
    injection h with h
    exact Or.inl h.symm
  · by_cases hO : ostride ≠ [] ∧ ostride[0]? ≠ some 1
    · rw [if_neg hI, if_pos hO] at h
      injection h with h
      exact Or.inr (Or.inl h.symm)
    · by_cases hB : istride ≠ [] ∧ ostride ≠ []
      · rw [if_neg hI, if_neg hO, if_pos hB] at h
        refine Or.inr (Or.inr (scaling_loop_error forward istride ostride _ ?_ e h))
        intro i hi
        have hisz := hdim.1.resolve_left hB.1
        have hosz := hdim.2.resolve_left hB.2
        simp [List.mem_range'_1] at hi
        omega
      · rw [if_neg hI, if_neg hO, if_neg hB] at h
        exact absurd h (by simp)

/-- Every failure of `check_set_iostride` on a non-empty length is one of the messages
of the checks on what the caller supplied. -/
theorem check_set_iostride_error_cases (place : rocfft_result_placement)
    (transformType : rocfft_transform_type) (l0 : Nat) (rest : List Nat)
    (itype otype : rocfft_array_type) (istride ostride : List Nat) (e : RiderError)
    (h : check_set_iostride place transformType (l0 :: rest) itype otype istride ostride
      = .error e) :
    stride_input_check e = true := by
  by_cases hA : istride ≠ [] ∧ istride.length ≠ (l0 :: rest).length
  · unfold check_set_iostride at h
    rw [if_pos hA] at h
    injection h with h
    subst h
    rfl
  · by_cases hB : ostride ≠ [] ∧ ostride.length ≠ (l0 :: rest).length
    · unfold check_set_iostride at h
      rw [if_neg hA, if_pos hB] at h
      injection h with h
      subst h
      rfl
    · have hdim : dimensions_agree (l0 :: rest) istride ostride := by
        constructor
        · by_cases hi : istride = []
          · exact Or.inl hi
          · exact Or.inr (by_contra fun hne => hA ⟨hi, hne⟩)
        · by_cases ho : ostride = []
          · exact Or.inl ho
          · exact Or.inr (by_contra fun hne => hB ⟨ho, hne⟩)
      rw [check_set_iostride_eq_branch place transformType l0 rest itype otype istride ostride
        hdim] at h
      by_cases hk : transformType = complex_forward ∨ transformType = complex_inverse
      · rw [if_pos hk] at h
        unfold complex_strides at h
        by_cases hC : place = inplace ∧ istride ≠ [] ∧ ostride ≠ [] ∧ istride ≠ ostride
        · rw [if_pos hC] at h
          injection h with h
          subst h
          rfl
        · rw [if_neg hC] at h
          exact absurd h (by simp)
      · rw [if_neg hk] at h
        unfold real_complex_strides at h
        simp only at h
        by_cases hp : place = inplace
        · subst hp
          simp only [decide_True, if_true] at h
          cases hchk : inplace_real_checks (decide (itype = real)) (l0 :: rest) istride
              ostride with
          | ok u =>
            rw [hchk] at h
            exact absurd h (by simp)
          | error e2 =>
            rw [hchk] at h
            injection h with h
            subst h
            rcases inplace_real_checks_error _ _ _ _ hdim e2 hchk with h1 | h1 | h1
            · subst h1; rfl
            · subst h1; rfl
            · subst h1
              by_cases hf : itype = real <;> simp [hf, stride_input_check]
        · simp [hp] at h

/-- C12: for an in-place transform of kind real-forward or real-inverse with
non-empty length `l0 :: rest` on which `check_set_iostride` succeeds, both resulting
strides start with 1, whether supplied or derived. -/
theorem inplace_real_strides_start_with_one (transformType : rocfft_transform_type)
    (hkind : transformType = real_forward ∨ transformType = real_inverse)
    (l0 : Nat) (rest : List Nat) (itype otype : rocfft_array_type)
    (istride ostride is' os' : List Nat)
    (h : check_set_iostride inplace transformType (l0 :: rest) itype otype istride ostride
      = .ok (is', os')) :
    is'[0]? = some 1 ∧ os'[0]? = some 1 := by
  have hk : ¬ (transformType = complex_forward ∨ transformType = complex_inverse) := by
    rcases hkind with h | h <;> simp [h]
  obtain ⟨_, hbranch, _, _⟩ := check_set_iostride_ok_sizes inplace transformType (l0 :: rest)
    itype otype istride ostride (is', os') h
  rw [if_neg hk] at hbranch
  unfold real_complex_strides at hbranch
  simp only [decide_True, if_true] at hbranch
  cases hchk : inplace_real_checks (decide (itype = real)) (l0 :: rest) istride ostride with
  | error e =>
    rw [hchk] at hbranch
    exact absurd hbranch (by simp)
  | ok u =>
    rw [hchk] at hbranch
    obtain ⟨hi, ho⟩ := inplace_real_checks_ok_heads _ _ _ _ u hchk
    injection hbranch with hbranch
    injection hbranch with e1 e2
    subst e1 e2
    constructor
    · by_cases hie : istride = []
      · by_cases hf : itype = real <;> simp [hie, hf, compute_stride_head]
      · simpa [hie] using hi.resolve_left hie
    · by_cases hoe : ostride = []
      · by_cases hf : itype = real <;> simp [hoe, hf, compute_stride_head]
      · simpa [hoe] using ho.resolve_left hoe

/-- C12, witness: real-inverse, length `[8, 4]`, the input stride `[1, 5]` supplied
and the output stride derived. -/
theorem inplace_real_strides_start_with_one_witness :
    (real_inverse = real_forward ∨ real_inverse = real_inverse)
    ∧ check_set_iostride inplace real_inverse [8, 4] hermitian_interleaved real [1, 5] []
        = .ok ([1, 5], [1, 10])
    ∧ (([1, 5] : List Nat)[0]? = some 1 ∧ ([1, 10] : List Nat)[0]? = some 1) :=
  ⟨Or.inr rfl, rfl,
    inplace_real_strides_start_with_one real_inverse (Or.inr rfl) 8 [4] hermitian_interleaved
      real [1, 5] [] [1, 5] [1, 10] rfl⟩

/-- C18: for an in-place transform of kind real-forward or real-inverse with non-empty
length `l0 :: rest` whose strides pass the dimension checks, if the input stride is
non-empty and does not start with 1, or the output stride is non-empty and does not
start with 1, `check_set_iostride` fails with "In-place real/complex transforms require
contiguous input data." in the first case and "... contiguous output data." otherwise,
the specification's `InPlaceContiguityViolation`; the other stride may be empty, and
the entries of index 1 and above play no part. -/
theorem inplace_real_contiguity_violation (transformType : rocfft_transform_type)
    (hkind : transformType = real_forward ∨ transformType = real_inverse)
    (l0 : Nat) (rest : List Nat) (itype otype : rocfft_array_type)
    (istride ostride : List Nat)
    (hdim : dimensions_agree (l0 :: rest) istride ostride)
    (hbad : (istride ≠ [] ∧ istride[0]? ≠ some 1) ∨ (ostride ≠ [] ∧ ostride[0]? ≠ some 1)) :
    ∃ e, check_set_iostride inplace transformType (l0 :: rest) itype otype istride ostride
        = .error e
      ∧ e = (if istride ≠ [] ∧ istride[0]? ≠ some 1 then .InputContiguityViolation
             else .OutputContiguityViolation)
      ∧ e.kind = some ErrorKind.InPlaceContiguityViolation := by
  have hk : ¬ (transformType = complex_forward ∨ transformType = complex_inverse) := by
    rcases hkind with h | h <;> simp [h]
  rw [check_set_iostride_eq_branch inplace transformType l0 rest itype otype istride ostride
    hdim, if_neg hk]
  unfold real_complex_strides
  simp only [decide_True, if_true, inplace_real_checks_eq]
  by_cases hI : istride ≠ [] ∧ istride[0]? ≠ some 1
  · exact ⟨.InputContiguityViolation, by rw [if_pos hI], by rw [if_pos hI], rfl⟩
  · have hO := hbad.resolve_left hI
    exact ⟨.OutputContiguityViolation, by rw [if_neg hI, if_pos hO], by rw [if_neg hI], rfl⟩

/-- C18, witness: real-forward, length `[8, 4]`, the input stride unset and the output
stride `[2, 7]`, which also breaks the 2x relation. -/
theorem inplace_real_contiguity_violation_witness :
    (real_forward = real_forward ∨ real_forward = real_inverse)
    ∧ dimensions_agree [8, 4] [] [2, 7]
    ∧ ((([] : List Nat) ≠ [] ∧ ([] : List Nat)[0]? ≠ some 1)
      ∨ (([2, 7] : List Nat) ≠ [] ∧ ([2, 7] : List Nat)[0]? ≠ some 1))
    ∧ ∃ e, check_set_iostride inplace real_forward [8, 4] real hermitian_interleaved [] [2, 7]
          = .error e
        ∧ e = (if ([] : List Nat) ≠ [] ∧ ([] : List Nat)[0]? ≠ some 1
               then .InputContiguityViolation else .OutputContiguityViolation)
        ∧ e.kind = some ErrorKind.InPlaceContiguityViolation :=
  ⟨Or.inl rfl, ⟨Or.inl rfl, Or.inr rfl⟩, Or.inr (by decide),
    inplace_real_contiguity_violation real_forward (Or.inl rfl) 8 [4] real
      hermitian_interleaved [] [2, 7] ⟨Or.inl rfl, Or.inr rfl⟩ (Or.inr (by decide))⟩

/-- The in-place real/complex call with both strides supplied, of the size of
`length` and starting with 1, is the loop of lines 280-292 followed by the return of
the strides as given. -/
theorem check_set_iostride_inplace_supplied_eq_loop (transformType : rocfft_transform_type)
    (hkind : transformType = real_forward ∨ transformType = real_inverse)
    (l0 : Nat) (rest : List Nat) (itype otype : rocfft_array_type)
    (istride ostride : List Nat)
    (hisize : istride.length = (l0 :: rest).length)
    (hosize : ostride.length = (l0 :: rest).length)
    (hi0 : istride[0]? = some 1) (ho0 : ostride[0]? = some 1) :
    check_set_iostride inplace transformType (l0 :: rest) itype otype istride ostride
      = (match scaling_loop (decide (itype = real)) istride ostride
            (List.range' 1 ((l0 :: rest).length - 1)) with
         | .error e => .error e
         | .ok _ => .ok (istride, ostride)) := by
  have hk : ¬ (transformType = complex_forward ∨ transformType = complex_inverse) := by
    rcases hkind with h | h <;> simp [h]
  have hine : istride ≠ [] := by
    intro h
    simp [h] at hisize
  have hone : ostride ≠ [] := by
    intro h
    simp [h] at hosize
  rw [check_set_iostride_eq_branch inplace transformType l0 rest itype otype istride ostride
    ⟨Or.inr hisize, Or.inr hosize⟩, if_neg hk]
  unfold real_complex_strides
  simp only [decide_True, if_true, inplace_real_checks_eq]
  rw [if_neg (by simp [hi0]), if_neg (by simp [ho0]), if_pos ⟨hine, hone⟩, if_neg hine,
    if_neg hone]

/-- C17, as the code has it: for an in-place transform of kind real-forward or
real-inverse with non-empty length `l0 :: rest` and both strides supplied, of the size
of `length` and starting with 1, `check_set_iostride` succeeds if and only if at every
index `1 ≤ i < length.size()` `istride[i]` equals `2 * ostride[i]` formed in `size_t`
(modulo `2 ^ 64`) when `itype = real`, and `2 * istride[i]` formed in `size_t` equals
`ostride[i]` when not; when none of these products wraps, that is the plain
`istride[i] = 2 * ostride[i]`, respectively `2 * istride[i] = ostride[i]`.  On success
the strides are returned as given, and otherwise the call fails with one of the two
"strides are inconsistent" messages, the specification's `ScalingStrideMismatch`. -/
theorem inplace_real_supplied_scaling_iff (transformType : rocfft_transform_type)
    (hkind : transformType = real_forward ∨ transformType = real_inverse)
    (l0 : Nat) (rest : List Nat) (itype otype : rocfft_array_type)
    (istride ostride : List Nat)
    (hisize : istride.length = (l0 :: rest).length)
    (hosize : ostride.length = (l0 :: rest).length)
    (hi0 : istride[0]? = some 1) (ho0 : ostride[0]? = some 1) :
    ((∃ r, check_set_iostride inplace transformType (l0 :: rest) itype otype istride ostride
        = .ok r) ↔
      ∀ i, 1 ≤ i → i < (l0 :: rest).length →
        ∃ a b, istride[i]? = some a ∧ ostride[i]? = some b
          ∧ (itype = real → a = (2 * b) % 2 ^ 64) ∧ (itype ≠ real → (2 * a) % 2 ^ 64 = b))
    ∧ ((∀ (j a b : Nat), istride[j]? = some a → ostride[j]? = some b →
          (itype = real → 2 * b < 2 ^ 64) ∧ (itype ≠ real → 2 * a < 2 ^ 64)) →
      ((∃ r, check_set_iostride inplace transformType (l0 :: rest) itype otype istride
          ostride = .ok r) ↔
        ∀ i, 1 ≤ i → i < (l0 :: rest).length →
          ∃ a b, istride[i]? = some a ∧ ostride[i]? = some b
            ∧ (itype = real → a = 2 * b) ∧ (itype ≠ real → 2 * a = b)))
    ∧ ((∃ r, check_set_iostride inplace transformType (l0 :: rest) itype otype istride ostride
        = .ok r) →
      check_set_iostride inplace transformType (l0 :: rest) itype otype istride ostride
        = .ok (istride, ostride))
    ∧ ((¬ ∃ r, check_set_iostride inplace transformType (l0 :: rest) itype otype istride
        ostride = .ok r) →
      ∃ e, check_set_iostride inplace transformType (l0 :: rest) itype otype istride ostride
          = .error e
        ∧ e.kind = some ErrorKind.ScalingStrideMismatch) := by
  have hbound : ∀ i ∈ List.range' 1 ((l0 :: rest).length - 1),
      i < istride.length ∧ i < ostride.length := by
    intro i hi
    simp [List.mem_range'_1] at hi
    simp at hisize hosize
    omega
  have hmain : (∃ r, check_set_iostride inplace transformType (l0 :: rest) itype otype
        istride ostride = .ok r) ↔
      ∀ i, 1 ≤ i → i < (l0 :: rest).length →
        ∃ a b, istride[i]? = some a ∧ ostride[i]? = some b
          ∧ (itype = real → a = (2 * b) % 2 ^ 64)
          ∧ (itype ≠ real → (2 * a) % 2 ^ 64 = b) := by
    rw [check_set_iostride_inplace_supplied_eq_loop transformType hkind l0 rest itype otype
      istride ostride hisize hosize hi0 ho0]
    cases hloop : scaling_loop (decide (itype = real)) istride ostride
        (List.range' 1 ((l0 :: rest).length - 1)) with
    | ok u =>
      refine ⟨fun _ => ?_, fun _ => ⟨_, rfl⟩⟩
      intro i h1 h2
      have hmem : i ∈ List.range' 1 ((l0 :: rest).length - 1) := by
        simp [List.mem_range'_1] at h2 ⊢
        omega
      obtain ⟨a, b, ha, hb, hf, hnf⟩ := (scaling_loop_ok_iff _ _ _ _).mp hloop i hmem
      exact ⟨a, b, ha, hb, fun h => hf (by simp [h]), fun h => hnf (by simp [h])⟩
    | error e =>
      refine ⟨fun hok => ?_, fun hall => ?_⟩
      · obtain ⟨r, hr⟩ := hok
        exact absurd hr (by simp)
      · exfalso
        have hok : scaling_loop (decide (itype = real)) istride ostride
            (List.range' 1 ((l0 :: rest).length - 1)) = .ok () := by
          rw [scaling_loop_ok_iff]
          intro i hi
          simp [List.mem_range'_1] at hi
          obtain ⟨a, b, ha, hb, hf, hnf⟩ := hall i hi.1 (by simp; omega)
          exact ⟨a, b, ha, hb, fun h => hf (by simpa using h), fun h => hnf (by simpa using h)⟩
        rw [hok] at hloop
        exact absurd hloop (by simp)
  refine ⟨hmain, fun hfits => ?_, ?_, ?_⟩
  · rw [hmain]
    constructor
    · intro h i h1 h2
      obtain ⟨a, b, ha, hb, hf, hnf⟩ := h i h1 h2
      obtain ⟨hfb, hfa⟩ := hfits i a b ha hb
      refine ⟨a, b, ha, hb, fun hr => ?_, fun hr => ?_⟩
      · have := hf hr
        rwa [Nat.mod_eq_of_lt (hfb hr)] at this
      · have := hnf hr
        rwa [Nat.mod_eq_of_lt (hfa hr)] at this
    · intro h i h1 h2
      obtain ⟨a, b, ha, hb, hf, hnf⟩ := h i h1 h2
      obtain ⟨hfb, hfa⟩ := hfits i a b ha hb
      refine ⟨a, b, ha, hb, fun hr => ?_, fun hr => ?_⟩
      · rw [Nat.mod_eq_of_lt (hfb hr)]
        exact hf hr
      · rw [Nat.mod_eq_of_lt (hfa hr)]
        exact hnf hr
  · rw [check_set_iostride_inplace_supplied_eq_loop transformType hkind l0 rest itype otype
      istride ostride hisize hosize hi0 ho0]
    cases hloop : scaling_loop (decide (itype = real)) istride ostride
        (List.range' 1 ((l0 :: rest).length - 1)) with
    | ok u => exact fun _ => rfl
    | error e =>
      intro hok
      obtain ⟨r, hr⟩ := hok
      exact absurd hr (by simp)
  · rw [check_set_iostride_inplace_supplied_eq_loop transformType hkind l0 rest itype otype
      istride ostride hisize hosize hi0 ho0]
    cases hloop : scaling_loop (decide (itype = real)) istride ostride
        (List.range' 1 ((l0 :: rest).length - 1)) with
    | ok u => exact fun hno => absurd ⟨_, rfl⟩ hno
    | error e =>
      have he := scaling_loop_error _ _ _ _ hbound e hloop
      refine fun _ => ⟨e, rfl, ?_⟩
      subst he
      by_cases hf : itype = real <;> simp [hf, RiderError.kind]

/-- C17, witness: real-forward, length `[8, 4]`, `itype = real`, strides `[1, 10]` and
`[1, 5]`: the call returns them. -/
theorem inplace_real_supplied_scaling_iff_witness :
    (real_forward = real_forward ∨ real_forward = real_inverse)
    ∧ ([1, 10] : List Nat).length = ([8, 4] : List Nat).length
    ∧ ([1, 5] : List Nat).length = ([8, 4] : List Nat).length
    ∧ ([1, 10] : List Nat)[0]? = some 1 ∧ ([1, 5] : List Nat)[0]? = some 1
    ∧ ((∃ r, check_set_iostride inplace real_forward [8, 4] real hermitian_interleaved
          [1, 10] [1, 5] = .ok r) ↔
        ∀ i, 1 ≤ i → i < ([8, 4] : List Nat).length →
          ∃ a b, ([1, 10] : List Nat)[i]? = some a ∧ ([1, 5] : List Nat)[i]? = some b
            ∧ (real = real → a = (2 * b) % 2 ^ 64) ∧ (real ≠ real → (2 * a) % 2 ^ 64 = b))
    ∧ check_set_iostride inplace real_forward [8, 4] real hermitian_interleaved
          [1, 10] [1, 5] = .ok ([1, 10], [1, 5]) :=
  ⟨Or.inl rfl, rfl, rfl, rfl, rfl,
    (inplace_real_supplied_scaling_iff real_forward (Or.inl rfl) 8 [4] real
      hermitian_interleaved [1, 10] [1, 5] rfl rfl rfl rfl).1,
    rfl⟩

/-- C17, counterexample: in-place real-forward, length `[8, 4]`, `itype = real`, input
stride `[1, 2]` and output stride `[1, 2 ^ 63 + 1]`: `2 * ostride[1]` is 2 in `size_t`,
the call succeeds, and `istride[1] = 2 * ostride[1]` does not hold. -/
theorem inplace_real_supplied_scaling_wrap :
    check_set_iostride inplace real_forward [8, 4] real hermitian_interleaved
        [1, 2] [1, 9223372036854775809] = .ok ([1, 2], [1, 9223372036854775809])
    ∧ ([1, 2] : List Nat)[1]? = some 2
    ∧ ([1, 9223372036854775809] : List Nat)[1]? = some 9223372036854775809
    ∧ 2 ≠ 2 * 9223372036854775809 := by
  decide

/-! ## Strides: the final validation and the vector reads -/

/-- C19: on a non-empty length `l0 :: rest`, whenever control reaches the final
validation of lines 325-332 (the dimension checks have passed and the branch of the
transform type has returned strides) both strides have the size of `length`; so
`check_set_iostride` never fails with "Setup failed; inconsistent istride and length."
or "Setup failed; inconsistent ostride and length.", and every failure is one of the
messages of the checks on what the caller supplied. -/
theorem final_validation_never_fails (place : rocfft_result_placement)
    (transformType : rocfft_transform_type) (l0 : Nat) (rest : List Nat)
    (itype otype : rocfft_array_type) (istride ostride : List Nat) :
    (dimensions_agree (l0 :: rest) istride ostride →
      ∀ q, (if transformType = complex_forward ∨ transformType = complex_inverse
              then complex_strides place (l0 :: rest) istride ostride
              else real_complex_strides place (l0 :: rest) itype istride ostride) = .ok q →
        q.1.length = (l0 :: rest).length ∧ q.2.length = (l0 :: rest).length)
    ∧ check_set_iostride place transformType (l0 :: rest) itype otype istride ostride
        ≠ .error .SetupInconsistentIstride
    ∧ check_set_iostride place transformType (l0 :: rest) itype otype istride ostride
        ≠ .error .SetupInconsistentOstride
    ∧ ∀ e, check_set_iostride place transformType (l0 :: rest) itype otype istride ostride
        = .error e → stride_input_check e = true := by
  refine ⟨?_, ?_, ?_, ?_⟩
  · intro hdim q hq
    by_cases hk : transformType = complex_forward ∨ transformType = complex_inverse
    · rw [if_pos hk] at hq
      exact complex_strides_ok_lengths place (l0 :: rest) istride ostride hdim q hq
    · rw [if_neg hk] at hq
      exact real_complex_strides_ok_lengths place l0 rest itype istride ostride hdim q hq
  · intro h
    have := check_set_iostride_error_cases place transformType l0 rest itype otype istride
      ostride _ h
    simp [stride_input_check] at this
  · intro h
    have := check_set_iostride_error_cases place transformType l0 rest itype otype istride
      ostride _ h
    simp [stride_input_check] at this
  · intro e h
    exact check_set_iostride_error_cases place transformType l0 rest itype otype istride
      ostride e h

/-- C19, witness: in-place real-forward, length `[8, 4]`, strides `[1, 9]` and `[1, 5]`:
the strides agree with `length` in size, the call fails, and the failure is the
real-to-complex scaling message. -/
theorem final_validation_never_fails_witness :
    dimensions_agree [8, 4] [1, 9] [1, 5]
    ∧ check_set_iostride inplace real_forward [8, 4] real hermitian_interleaved [1, 9] [1, 5]
        = .error .RealToComplexScalingMismatch
    ∧ stride_input_check .RealToComplexScalingMismatch = true :=
  ⟨⟨Or.inr rfl, Or.inr rfl⟩, rfl,
    (final_validation_never_fails inplace real_forward 8 [4] real hermitian_interleaved
      [1, 9] [1, 5]).2.2.2 _ rfl⟩

/-- C20: on a non-empty length `l0 :: rest` no read of a vector made by
`check_set_iostride` falls outside the vector, whatever the other arguments: the reads
of `istride[0]` and `ostride[0]` are made only on a non-empty stride (on an empty one
the condition of lines 268 and 273 is false without a read), and the reads of
`istride[i]`, `ostride[i]` in the loop are made only past the dimension checks with
both strides non-empty, hence of the size of `length`.  On an empty length with a
transform type of the real/complex branch the dimension checks reject a non-empty
stride, and with both strides empty the read of `length[0]` at line 263 is outside the
vector. -/
theorem vector_reads_in_bounds (place : rocfft_result_placement)
    (transformType : rocfft_transform_type) (itype otype : rocfft_array_type)
    (istride ostride : List Nat) :
    (∀ (l0 : Nat) (rest : List Nat),
      check_set_iostride place transformType (l0 :: rest) itype otype istride ostride
        ≠ .error .IndexOutOfBounds)
    ∧ (not_empty_and_head_not_one istride ≠ .error .IndexOutOfBounds
      ∧ not_empty_and_head_not_one ostride ≠ .error .IndexOutOfBounds
      ∧ not_empty_and_head_not_one [] = .ok false)
    ∧ (∀ (forward : Bool) (length : List Nat), dimensions_agree length istride ostride →
      inplace_real_checks forward length istride ostride ≠ .error .IndexOutOfBounds)
    ∧ (transformType ≠ complex_forward → transformType ≠ complex_inverse →
      check_set_iostride place transformType [] itype otype istride ostride
        = .error (if istride ≠ [] then .InputStrideLengthMismatch
                  else if ostride ≠ [] then .OutputStrideLengthMismatch
                  else .IndexOutOfBounds)) := by
  refine ⟨?_, ⟨?_, ?_, rfl⟩, ?_, ?_⟩
  · intro l0 rest h
    have := check_set_iostride_error_cases place transformType l0 rest itype otype istride
      ostride _ h
    simp [stride_input_check] at this
  · rw [not_empty_and_head_not_one_eq]
    simp
  · rw [not_empty_and_head_not_one_eq]
    simp
  · intro forward length hdim h
    rcases inplace_real_checks_error forward length istride ostride hdim _ h with h1 | h1 | h1
    · exact absurd h1 (by decide)
    · exact absurd h1 (by decide)
    · cases forward <;> exact absurd h1 (by decide)
  · intro hk1 hk2
    by_cases hi : istride = []
    · by_cases ho : ostride = []
      · simp [check_set_iostride, real_complex_strides, hi, ho, hk1, hk2]
      · simp [check_set_iostride, hi, ho]
    · simp [check_set_iostride, hi]

/-- C20, witness: real-forward with an empty length and both strides unset reads
`length[0]` outside the vector; with length `[8, 4]`, the input stride unset and the
output stride `[1, 5]`, every read is inside. -/
theorem vector_reads_in_bounds_witness :
    real_forward ≠ complex_forward ∧ real_forward ≠ complex_inverse
    ∧ check_set_iostride inplace real_forward [] real hermitian_interleaved [] []
        = .error .IndexOutOfBounds
    ∧ dimensions_agree [8, 4] [] [1, 5]
    ∧ inplace_real_checks true [8, 4] [] [1, 5] ≠ .error .IndexOutOfBounds
    ∧ check_set_iostride inplace real_forward [8, 4] real hermitian_interleaved [] [1, 5]
        ≠ .error .IndexOutOfBounds :=
  ⟨by decide, by decide,
    (vector_reads_in_bounds inplace real_forward real hermitian_interleaved [] []).2.2.2
      (by decide) (by decide),
    ⟨Or.inl rfl, Or.inr rfl⟩,
    (vector_reads_in_bounds inplace real_forward real hermitian_interleaved [] [1, 5]).2.2.1
      true [8, 4] ⟨Or.inl rfl, Or.inr rfl⟩,
    (vector_reads_in_bounds inplace real_forward real hermitian_interleaved [] [1, 5]).1
      8 [4]⟩

end Rider
